import Mathlib

/-!
Verification of the `webp_decode_rgba` host wrapper (src/lib/webp_decode.c)
against its natural-language specification.

The wrapper is a thin shim over an external decoding library
(`WebPGetInfo`, `WebPDecodeRGBA`, `WebPFree`).  We embed the wrapper
itself faithfully from the C source as a pure function over an explicit
caller-visible state (the bytes behind `webp_data` and the three output
slots `*out_rgba`, `*width`, `*height`), parameterised by the behaviour
of the external library (a `WebPLib` record of two pure functions).
A call trace records which library calls were made and whether the
output slot was written.

The external library itself is not part of the repository's sources, so
for the claims that depend on its behaviour we provide a concrete model
(`webpLib_model`) whose container parsing follows the specification's
container-parser contract (magic signature, overall size field,
bit-packed 14-bit width/height stored as value minus one, a
lossless/lossy discriminator bit, dimension check), and whose pixel
decode abstracts the entropy-coded payload to the specification's
no-transform literal-pixel scenario: it fails on bitstream exhaustion
and otherwise produces the `width*height*4`-byte RGBA buffer.
-/

/-- Byte at index `i` of a byte list, `0` when out of range
(a defensive sentinel; all real reads are guarded by length checks). -/
def byteAt : List Nat → Nat → Nat
  | [], _ => 0
  | b :: _, 0 => b
  | _ :: bs, n + 1 => byteAt bs n

/-- Little-endian 32-bit read at byte offset `off`. -/
def readLE32 (bytes : List Nat) (off : Nat) : Nat :=
  byteAt bytes off + 256 * byteAt bytes (off + 1) +
    65536 * byteAt bytes (off + 2) + 16777216 * byteAt bytes (off + 3)

/-- Modelled from the spec: the fixed magic signature the container
parser validates at the start of an encoded image. -/
def MAGIC : List Nat := [82, 73, 70, 70]

/-- Modelled from the spec: the container parser of the external
decoding library, which is not part of this repository's sources.
Per the specification's container-parser contract it validates the
fixed magic signature and the overall size field (the 32-bit
little-endian field at offset 4 declaring the number of payload bytes
that follow the 8-byte outer header), extracts the bit-packed 14-bit
width and height fields (stored as value minus one) and the
lossless/lossy discriminator bit from the 32-bit word at offset 8, and
fails if width or height resolves to zero.  Only the first `size`
bytes of the buffer are accessible to the parser. -/
def parseHeader (data : List Nat) (size : Nat) : Option (Nat × Nat × Bool) :=
  let bytes := data.take size
  if bytes.length < 12 then none
  else if bytes.take 4 ≠ MAGIC then none
  else if 8 + readLE32 bytes 4 ≠ size then none
  else
    let hdr := readLE32 bytes 8
    let w := hdr % 16384 + 1
    let h := hdr / 16384 % 16384 + 1
    if w = 0 ∨ h = 0 then none
    else some (w, h, hdr / (16384 * 16384) % 2 = 1)

/-- Modelled from the spec: the pixel-decoding stage of the external
library.  The specification's entropy-coded transform pipelines are
abstracted to its concrete no-transform scenario: the payload after the
12-byte header region holds the literal pixels, the decode fails with a
bitstream-exhaustion error when the accessible payload is shorter than
`w * h * 4` bytes, and otherwise yields exactly the
`w * h * 4`-byte row-major RGBA8 buffer. -/
def decodePayload (data : List Nat) (size w h : Nat) : Option (List Nat) :=
  let payload := (data.take size).drop 12
  if payload.length < w * h * 4 then none
  else some (payload.take (w * h * 4))

/-- Modelled from the spec: `WebPGetInfo` of the external library
reports success together with the dimensions declared in the container
header, and failure when the container does not parse. -/
def getInfo_model (data : List Nat) (size : Nat) : Option (Int × Int) :=
  match parseHeader data size with
  | none => none
  | some (w, h, _) => some ((w : Int), (h : Int))

/-- Modelled from the spec: `WebPDecodeRGBA` of the external library
parses the container, decodes the pixel payload, and on success returns
the dimensions from the container header together with the freshly
allocated pixel buffer; on any failure it returns a null pointer,
modelled as `none`. -/
def decodeRGBA_model (data : List Nat) (size : Nat) :
    Option (Int × Int × List Nat) :=
  match parseHeader data size with
  | none => none
  | some (w, h, _) =>
    match decodePayload data size w h with
    | none => none
    | some pixels => some ((w : Int), (h : Int), pixels)

/-- Behaviour of the external decoding library as seen by the wrapper:
`getInfo` models `WebPGetInfo` (success with the reported width and
height, or failure), `decodeRGBA` models `WebPDecodeRGBA` (a non-null
result pointer carries the reported dimensions and the allocated pixel
bytes; `none` models a null return). -/
structure WebPLib where
  getInfo : List Nat → Nat → Option (Int × Int)
  decodeRGBA : List Nat → Nat → Option (Int × Int × List Nat)

/-- The spec-modelled external library. -/
def webpLib_model : WebPLib :=
  { getInfo := getInfo_model, decodeRGBA := decodeRGBA_model }

/-- Caller-visible memory touched by a `webp_decode_rgba` call: the
bytes behind the (non-null) `webp_data` pointer, and the contents of
the three caller-supplied output slots `*out_rgba` (a pointer value,
`none` when it holds null, `some buf` when it points at buffer `buf`),
`*width` and `*height`. -/
structure CState where
  data : List Nat
  out_rgba : Option (List Nat)
  width : Int
  height : Int
deriving Repr, DecidableEq

/-- Trace of a `webp_decode_rgba` call: which external library
functions it invoked and whether it wrote through `*out_rgba`. -/
structure Trace where
  getInfoCalled : Bool
  decodeCalled : Bool
  wroteOut : Bool
deriving Repr, DecidableEq

/-- The wrapper `webp_decode_rgba` from src/lib/webp_decode.c, embedded
line by line.  `webp_data_null`, `out_rgba_null`, `width_null` and
`height_null` say whether the corresponding pointer argument is null;
the bytes behind a non-null `webp_data` live in `s.data`.  Returns the
C return value, the final caller-visible state, and the call trace.

C source:
  if (!webp_data || data_size == 0 || !out_rgba || !width || !height) return 0;
  int w = 0, h = 0;
  if (!WebPGetInfo(webp_data, data_size, &w, &h) || w <= 0 || h <= 0) return 0;
  uint8_t* rgba = WebPDecodeRGBA(webp_data, data_size, &w, &h);
  if (!rgba) return 0;
  *out_rgba = rgba; *width = w; *height = h; return 1; -/
def webp_decode_rgba (lib : WebPLib) (webp_data_null : Bool)
    (data_size : Nat) (out_rgba_null width_null height_null : Bool)
    (s : CState) : Int × CState × Trace :=
  if webp_data_null ∨ data_size = 0 ∨ out_rgba_null ∨ width_null ∨
      height_null then
    (0, s, ⟨false, false, false⟩)
  else
    match lib.getInfo s.data data_size with
    | none => (0, s, ⟨true, false, false⟩)
    | some (w, h) =>
      if w ≤ 0 ∨ h ≤ 0 then (0, s, ⟨true, false, false⟩)
      else
        match lib.decodeRGBA s.data data_size with
        | none => (0, s, ⟨true, true, false⟩)
        | some (w2, h2, rgba) =>
          (1, { s with out_rgba := some rgba, width := w2, height := h2 },
            ⟨true, true, true⟩)

example :
    (webp_decode_rgba webpLib_model true 3 false false false
      ⟨[1, 2], none, 0, 0⟩).1 = 0 := by decide

/-- A concrete 16-byte valid encoded image under the spec model:
magic, declared payload size 8, a header word encoding width 1,
height 1, lossless, then the 4 literal RGBA bytes. -/
def sampleImage : List Nat :=
  MAGIC ++ [8, 0, 0, 0] ++ [0, 0, 0, 16] ++ [10, 20, 30, 40]

example : decodeRGBA_model sampleImage 16 =
    some (1, 1, [10, 20, 30, 40]) := by decide

example :
    (webp_decode_rgba webpLib_model false 16 false false false
      ⟨sampleImage, none, 0, 0⟩).1 = 1 := by decide

/-! ## Claims about the wrapper alone (any library behaviour) -/

/-- C3: for every call of `webp_decode_rgba` with a zero-length input
(`data_size = 0`), the wrapper returns 0 (failure) rather than
succeeding. -/
theorem zero_length_input_fails (lib : WebPLib) (dn outn wn hn : Bool)
    (data_size : Nat) (s : CState) (hsize : data_size = 0) :
    (webp_decode_rgba lib dn data_size outn wn hn s).1 = 0 := by
  subst hsize
  simp [webp_decode_rgba]

/-- C3 witness at a concrete call. -/
theorem zero_length_input_fails_witness :
    (webp_decode_rgba webpLib_model false 0 false false false
      ⟨sampleImage, none, 0, 0⟩).1 = 0 :=
  zero_length_input_fails webpLib_model false false false false 0
    ⟨sampleImage, none, 0, 0⟩ rfl

/-- Helper: every run of the wrapper either fails, returning 0 with the
caller-visible state untouched and the output slot unwritten, or
succeeds, returning 1 after the decoder library produced a non-null
buffer that is stored, with its dimensions, into the output slots. -/
theorem wrapper_result_cases (lib : WebPLib) (dn outn wn hn : Bool)
    (data_size : Nat) (s : CState) :
    ((webp_decode_rgba lib dn data_size outn wn hn s).1 = 0 ∧
      (webp_decode_rgba lib dn data_size outn wn hn s).2.1 = s ∧
      (webp_decode_rgba lib dn data_size outn wn hn s).2.2.wroteOut = false) ∨
    (∃ w2 h2 rgba, lib.decodeRGBA s.data data_size = some (w2, h2, rgba) ∧
      webp_decode_rgba lib dn data_size outn wn hn s =
        (1, { s with out_rgba := some rgba, width := w2, height := h2 },
          ⟨true, true, true⟩)) := by
  unfold webp_decode_rgba
  by_cases hc : dn = true ∨ data_size = 0 ∨ outn = true ∨ wn = true ∨ hn = true
  · left
    simp [hc]
  · simp only [if_neg hc]
    cases hgi : lib.getInfo s.data data_size with
    | none => left; exact ⟨rfl, rfl, rfl⟩
    | some p =>
      obtain ⟨w, h⟩ := p
      by_cases hwh : w ≤ 0 ∨ h ≤ 0
      · left
        simp [hwh]
      · simp only [if_neg hwh]
        cases hd : lib.decodeRGBA s.data data_size with
        | none => left; exact ⟨rfl, rfl, rfl⟩
        | some q =>
          obtain ⟨w2, h2, rgba⟩ := q
          right
          exact ⟨w2, h2, rgba, rfl, rfl⟩

/-- C2: whenever `webp_decode_rgba` fails (returns 0), it exposes no
buffer and leaves every caller-supplied output slot — and the rest of
the caller-visible state — exactly as it was: decode is all-or-nothing
with no partial output. -/
theorem failure_leaves_state_unchanged (lib : WebPLib) (dn outn wn hn : Bool)
    (data_size : Nat) (s : CState)
    (hfail : (webp_decode_rgba lib dn data_size outn wn hn s).1 = 0) :
    (webp_decode_rgba lib dn data_size outn wn hn s).2.1 = s ∧
    (webp_decode_rgba lib dn data_size outn wn hn s).2.2.wroteOut = false := by
  rcases wrapper_result_cases lib dn outn wn hn data_size s with
    ⟨_, hs, hw⟩ | ⟨w2, h2, rgba, _, heq⟩
  · exact ⟨hs, hw⟩
  · rw [heq] at hfail
    simp at hfail

/-- C2 witness at a concrete failing call. -/
theorem failure_leaves_state_unchanged_witness :
    (webp_decode_rgba webpLib_model false 3 false false false
      ⟨sampleImage, none, 7, 9⟩).2.1 = ⟨sampleImage, none, 7, 9⟩ ∧
    (webp_decode_rgba webpLib_model false 3 false false false
      ⟨sampleImage, none, 7, 9⟩).2.2.wroteOut = false :=
  failure_leaves_state_unchanged webpLib_model false false false false 3
    ⟨sampleImage, none, 7, 9⟩ (by decide)

/-- C7: `webp_decode_rgba` never mutates the caller-owned input byte
sequence: the encoded bytes are the same before and after the call,
whether it succeeds or fails. -/
theorem input_bytes_never_mutated (lib : WebPLib) (dn outn wn hn : Bool)
    (data_size : Nat) (s : CState) :
    (webp_decode_rgba lib dn data_size outn wn hn s).2.1.data = s.data := by
  rcases wrapper_result_cases lib dn outn wn hn data_size s with
    ⟨_, hs, _⟩ | ⟨w2, h2, rgba, _, heq⟩
  · rw [hs]
  · rw [heq]

/-- C9: when any of the pointer arguments `webp_data`, `out_rgba`,
`width` or `height` is null, the wrapper returns 0 immediately, invokes
no function of the decoder library, and touches no caller-visible
memory. -/
theorem null_pointer_early_return (lib : WebPLib) (dn outn wn hn : Bool)
    (data_size : Nat) (s : CState)
    (hnull : dn = true ∨ outn = true ∨ wn = true ∨ hn = true) :
    (webp_decode_rgba lib dn data_size outn wn hn s).1 = 0 ∧
    (webp_decode_rgba lib dn data_size outn wn hn s).2.1 = s ∧
    (webp_decode_rgba lib dn data_size outn wn hn s).2.2 =
      ⟨false, false, false⟩ := by
  have hc : dn = true ∨ data_size = 0 ∨ outn = true ∨ wn = true ∨ hn = true := by
    tauto
  unfold webp_decode_rgba
  simp [hc]

/-- C9 witness at a concrete call with a null `out_rgba` slot. -/
theorem null_pointer_early_return_witness :
    (webp_decode_rgba webpLib_model false 16 true false false
      ⟨sampleImage, none, 0, 0⟩).1 = 0 ∧
    (webp_decode_rgba webpLib_model false 16 true false false
      ⟨sampleImage, none, 0, 0⟩).2.1 = ⟨sampleImage, none, 0, 0⟩ ∧
    (webp_decode_rgba webpLib_model false 16 true false false
      ⟨sampleImage, none, 0, 0⟩).2.2 = ⟨false, false, false⟩ :=
  null_pointer_early_return webpLib_model false true false false 16
    ⟨sampleImage, none, 0, 0⟩ (Or.inr (Or.inl rfl))

/-- C10: the wrapper returns exactly 0 or 1, and it returns 1 exactly
when it wrote through `*out_rgba`, in which case the stored value is
the non-null pixel-buffer pointer obtained from the decoder library. -/
theorem return_value_characterisation (lib : WebPLib) (dn outn wn hn : Bool)
    (data_size : Nat) (s : CState) :
    ((webp_decode_rgba lib dn data_size outn wn hn s).1 = 0 ∨
      (webp_decode_rgba lib dn data_size outn wn hn s).1 = 1) ∧
    ((webp_decode_rgba lib dn data_size outn wn hn s).1 = 1 ↔
      (webp_decode_rgba lib dn data_size outn wn hn s).2.2.wroteOut = true) ∧
    ((webp_decode_rgba lib dn data_size outn wn hn s).1 = 1 →
      ∃ w2 h2 rgba, lib.decodeRGBA s.data data_size = some (w2, h2, rgba) ∧
        (webp_decode_rgba lib dn data_size outn wn hn s).2.1.out_rgba =
          some rgba) := by
  rcases wrapper_result_cases lib dn outn wn hn data_size s with
    ⟨hr, _, hw⟩ | ⟨w2, h2, rgba, hd, heq⟩
  · refine ⟨Or.inl hr, ?_, ?_⟩
    · rw [hr, hw]
      simp
    · intro h1
      rw [hr] at h1
      simp at h1
  · rw [heq]
    exact ⟨Or.inr rfl, by simp, fun _ => ⟨w2, h2, rgba, hd, rfl⟩⟩

/-- C4: whenever `WebPGetInfo` reports a non-positive width or height
(a container header resolving a dimension to 0), the wrapper returns 0
and never calls the pixel decoder `WebPDecodeRGBA`. -/
theorem nonpositive_dimensions_fail (lib : WebPLib) (dn outn wn hn : Bool)
    (data_size : Nat) (s : CState) (w h : Int)
    (hinfo : lib.getInfo s.data data_size = some (w, h))
    (hwh : w ≤ 0 ∨ h ≤ 0) :
    (webp_decode_rgba lib dn data_size outn wn hn s).1 = 0 ∧
    (webp_decode_rgba lib dn data_size outn wn hn s).2.2.decodeCalled =
      false := by
  unfold webp_decode_rgba
  by_cases hc : dn = true ∨ data_size = 0 ∨ outn = true ∨ wn = true ∨ hn = true
  · simp [hc]
  · simp only [if_neg hc, hinfo]
    simp [hwh]

/-- A degenerate library whose header probe reports width 0. -/
def degenerateLib : WebPLib :=
  { getInfo := fun _ _ => some (0, 5), decodeRGBA := fun _ _ => none }

/-- C4 witness: a call against the degenerate library. -/
theorem nonpositive_dimensions_fail_witness :
    (webp_decode_rgba degenerateLib false 4 false false false
      ⟨[1, 2, 3, 4], none, 0, 0⟩).1 = 0 ∧
    (webp_decode_rgba degenerateLib false 4 false false false
      ⟨[1, 2, 3, 4], none, 0, 0⟩).2.2.decodeCalled = false :=
  nonpositive_dimensions_fail degenerateLib false false false false 4
    ⟨[1, 2, 3, 4], none, 0, 0⟩ 0 5 rfl (Or.inl (by decide))

/-- C6: decoding is deterministic — two calls of the wrapper over the
spec-modelled library on the same input bytes return the same value,
and on success store the same dimensions and byte-identical
pixel-buffer contents, whatever the previous contents of the output
slots were. -/
theorem decode_deterministic (dn outn wn hn : Bool) (size : Nat)
    (s₁ s₂ : CState) (hdata : s₁.data = s₂.data) :
    (webp_decode_rgba webpLib_model dn size outn wn hn s₁).1 =
      (webp_decode_rgba webpLib_model dn size outn wn hn s₂).1 ∧
    ((webp_decode_rgba webpLib_model dn size outn wn hn s₁).1 = 1 →
      (webp_decode_rgba webpLib_model dn size outn wn hn s₁).2.1.out_rgba =
        (webp_decode_rgba webpLib_model dn size outn wn hn s₂).2.1.out_rgba ∧
      (webp_decode_rgba webpLib_model dn size outn wn hn s₁).2.1.width =
        (webp_decode_rgba webpLib_model dn size outn wn hn s₂).2.1.width ∧
      (webp_decode_rgba webpLib_model dn size outn wn hn s₁).2.1.height =
        (webp_decode_rgba webpLib_model dn size outn wn hn s₂).2.1.height) := by
  unfold webp_decode_rgba
  rw [hdata]
  by_cases hc : dn = true ∨ size = 0 ∨ outn = true ∨ wn = true ∨ hn = true
  · simp [hc]
  · simp only [if_neg hc]
    cases hgi : webpLib_model.getInfo s₂.data size with
    | none => simp
    | some p =>
      obtain ⟨w, h⟩ := p
      by_cases hwh : w ≤ 0 ∨ h ≤ 0
      · simp [hwh]
      · simp only [if_neg hwh]
        cases hd : webpLib_model.decodeRGBA s₂.data size with
        | none => simp
        | some q =>
          obtain ⟨w2, h2, rgba⟩ := q
          simp

/-- C6 witness: two calls on the sample image from different initial
slot contents agree. -/
theorem decode_deterministic_witness :
    (webp_decode_rgba webpLib_model false 16 false false false
      ⟨sampleImage, none, 0, 0⟩).1 =
      (webp_decode_rgba webpLib_model false 16 false false false
        ⟨sampleImage, some [9], 5, 5⟩).1 ∧
    ((webp_decode_rgba webpLib_model false 16 false false false
      ⟨sampleImage, none, 0, 0⟩).1 = 1 →
      (webp_decode_rgba webpLib_model false 16 false false false
        ⟨sampleImage, none, 0, 0⟩).2.1.out_rgba =
        (webp_decode_rgba webpLib_model false 16 false false false
          ⟨sampleImage, some [9], 5, 5⟩).2.1.out_rgba ∧
      (webp_decode_rgba webpLib_model false 16 false false false
        ⟨sampleImage, none, 0, 0⟩).2.1.width =
        (webp_decode_rgba webpLib_model false 16 false false false
          ⟨sampleImage, some [9], 5, 5⟩).2.1.width ∧
      (webp_decode_rgba webpLib_model false 16 false false false
        ⟨sampleImage, none, 0, 0⟩).2.1.height =
        (webp_decode_rgba webpLib_model false 16 false false false
          ⟨sampleImage, some [9], 5, 5⟩).2.1.height) :=
  decode_deterministic false false false false 16
    ⟨sampleImage, none, 0, 0⟩ ⟨sampleImage, some [9], 5, 5⟩ rfl

/-! ## Claims about the wrapper over the spec-modelled library -/

/-- Helper: a successful pixel decode yields exactly `w * h * 4`
bytes. -/
theorem decodePayload_length (data : List Nat) (size w h : Nat)
    (pixels : List Nat) (hp : decodePayload data size w h = some pixels) :
    pixels.length = w * h * 4 := by
  simp only [decodePayload] at hp
  split at hp
  · exact absurd hp (by simp)
  · rename_i hlen
    injection hp with hp
    subst hp
    rw [List.length_take]
    omega

/-- Helper: a non-null result of the modelled `WebPDecodeRGBA` carries
the dimensions of the parsed container header and a buffer of exactly
`w * h * 4` bytes. -/
theorem decodeRGBA_model_sound (data : List Nat) (size : Nat) (w2 h2 : Int)
    (rgba : List Nat) (hd : decodeRGBA_model data size = some (w2, h2, rgba)) :
    ∃ w h ll, parseHeader data size = some (w, h, ll) ∧ w2 = (w : Int) ∧
      h2 = (h : Int) ∧ rgba.length = w * h * 4 := by
  unfold decodeRGBA_model at hd
  cases hph : parseHeader data size with
  | none =>
    rw [hph] at hd
    exact absurd hd (by simp)
  | some t =>
    obtain ⟨w, h, ll⟩ := t
    rw [hph] at hd
    dsimp only at hd
    cases hp : decodePayload data size w h with
    | none =>
      rw [hp] at hd
      exact absurd hd (by simp)
    | some pixels =>
      rw [hp] at hd
      simp only [Option.some.injEq, Prod.mk.injEq] at hd
      obtain ⟨hw, hh, hr⟩ := hd
      exact ⟨w, h, ll, rfl, hw.symm, hh.symm,
        hr ▸ decodePayload_length data size w h pixels hp⟩

/-- C1: whenever the wrapper (over the spec-modelled library) succeeds,
the caller-supplied slots receive a pixel buffer of exactly
`width * height * 4` bytes together with the image dimensions, and
those dimensions are exactly the ones declared in the encoded image's
container header. -/
theorem success_output_matches_header (dn outn wn hn : Bool) (size : Nat)
    (s : CState)
    (hs : (webp_decode_rgba webpLib_model dn size outn wn hn s).1 = 1) :
    ∃ w h ll rgba,
      parseHeader s.data size = some (w, h, ll) ∧
      (webp_decode_rgba webpLib_model dn size outn wn hn s).2.1.out_rgba =
        some rgba ∧
      rgba.length = w * h * 4 ∧
      (webp_decode_rgba webpLib_model dn size outn wn hn s).2.1.width =
        (w : Int) ∧
      (webp_decode_rgba webpLib_model dn size outn wn hn s).2.1.height =
        (h : Int) := by
  rcases wrapper_result_cases webpLib_model dn outn wn hn size s with
    ⟨hr, _, _⟩ | ⟨w2, h2, rgba, hd, heq⟩
  · rw [hr] at hs
    exact absurd hs (by simp)
  · have hd' : decodeRGBA_model s.data size = some (w2, h2, rgba) := hd
    obtain ⟨w, h, ll, hph, hw, hh, hlen⟩ :=
      decodeRGBA_model_sound s.data size w2 h2 rgba hd'
    refine ⟨w, h, ll, rgba, hph, ?_, hlen, ?_, ?_⟩ <;>
      rw [heq] <;> simp [hw, hh]

/-- C1 witness: a successful decode of the concrete sample image. -/
theorem success_output_matches_header_witness :
    ∃ w h ll rgba,
      parseHeader (CState.mk sampleImage none 0 0).data 16 = some (w, h, ll) ∧
      (webp_decode_rgba webpLib_model false 16 false false false
        ⟨sampleImage, none, 0, 0⟩).2.1.out_rgba = some rgba ∧
      rgba.length = w * h * 4 ∧
      (webp_decode_rgba webpLib_model false 16 false false false
        ⟨sampleImage, none, 0, 0⟩).2.1.width = (w : Int) ∧
      (webp_decode_rgba webpLib_model false 16 false false false
        ⟨sampleImage, none, 0, 0⟩).2.1.height = (h : Int) :=
  success_output_matches_header false false false false 16
    ⟨sampleImage, none, 0, 0⟩ (by decide)

/-- Helper: reading a byte below a truncation point sees the original
byte. -/
theorem byteAt_take (l : List Nat) (k i : Nat) (hik : i < k) :
    byteAt (l.take k) i = byteAt l i := by
  induction l generalizing k i with
  | nil => simp [List.take_nil]
  | cons b bs ih =>
    cases k with
    | zero => omega
    | succ k =>
      cases i with
      | zero => simp [byteAt]
      | succ i =>
        simp only [List.take, byteAt]
        exact ih k i (by omega)

/-- Helper: a successful container parse pins down the accessible
length, the magic signature and the declared overall size. -/
theorem parseHeader_facts (data : List Nat) (size : Nat) (t : Nat × Nat × Bool)
    (hp : parseHeader data size = some t) :
    12 ≤ (data.take size).length ∧ (data.take size).take 4 = MAGIC ∧
      8 + readLE32 (data.take size) 4 = size := by
  simp only [parseHeader] at hp
  split at hp
  · exact absurd hp (by simp)
  · split at hp
    · exact absurd hp (by simp)
    · split at hp
      · exact absurd hp (by simp)
      · rename_i h1 h2 h3
        refine ⟨by omega, ?_, ?_⟩
        · by_contra hne
          exact h2 hne
        · by_contra hne
          exact h3 hne

/-- Helper: truncating a buffer whose header declared the full length
makes the container parse fail — the declared overall size now exceeds
the bytes available. -/
theorem truncation_breaks_parse (data : List Nat) (k : Nat)
    (hk : k < data.length)
    (hmagic : data.take 4 = MAGIC)
    (hsize : 8 + readLE32 data 4 = data.length) :
    parseHeader (data.take k) k = none := by
  have htt : (data.take k).take k = data.take k := by
    rw [List.take_take]
    simp
  have hlen : (data.take k).length = k := by
    rw [List.length_take]
    omega
  simp only [parseHeader, htt, hlen]
  by_cases h12k : k < 12
  · rw [if_pos h12k]
  · rw [if_neg h12k]
    have hm4 : (data.take k).take 4 = MAGIC := by
      rw [List.take_take]
      have hmin : min 4 k = 4 := by omega
      rw [hmin, hmagic]
    rw [if_neg (by simp [hm4])]
    have hr : readLE32 (data.take k) 4 = readLE32 data 4 := by
      unfold readLE32
      rw [byteAt_take data k 4 (by omega), byteAt_take data k 5 (by omega),
        byteAt_take data k 6 (by omega), byteAt_take data k 7 (by omega)]
    rw [if_pos (by rw [hr]; omega)]

/-- C5: truncating a valid encoded buffer at any byte offset before its
full length makes the decode fail — the modelled decoder (a total
function, so crash- and out-of-bounds-free by construction) returns a
null result on the truncated bytes, and the wrapper consequently
returns 0. -/
theorem truncated_decode_fails (data : List Nat) (k : Nat)
    (dn outn wn hn : Bool) (s : CState)
    (hvalid : (decodeRGBA_model data data.length).isSome = true)
    (hk : k < data.length) (hsdata : s.data = data.take k) :
    decodeRGBA_model (data.take k) k = none ∧
    (webp_decode_rgba webpLib_model dn k outn wn hn s).1 = 0 := by
  have hp : ∃ t, parseHeader data data.length = some t := by
    unfold decodeRGBA_model at hvalid
    cases hph : parseHeader data data.length with
    | none =>
      rw [hph] at hvalid
      simp at hvalid
    | some t => exact ⟨t, rfl⟩
  obtain ⟨t, hph⟩ := hp
  have hf := parseHeader_facts data data.length t hph
  rw [List.take_length] at hf
  obtain ⟨h12, hmagic, hsize⟩ := hf
  have hnone : parseHeader (data.take k) k = none :=
    truncation_breaks_parse data k hk hmagic hsize
  have hmodel : decodeRGBA_model (data.take k) k = none := by
    unfold decodeRGBA_model
    rw [hnone]
  refine ⟨hmodel, ?_⟩
  rcases wrapper_result_cases webpLib_model dn outn wn hn k s with
    ⟨hr, _, _⟩ | ⟨w2, h2, rgba, hd, heq⟩
  · exact hr
  · rw [hsdata] at hd
    have hd' : decodeRGBA_model (data.take k) k = some (w2, h2, rgba) := hd
    rw [hmodel] at hd'
    exact absurd hd' (by simp)

/-- C5 witness: the 16-byte sample image truncated to 10 bytes. -/
theorem truncated_decode_fails_witness :
    decodeRGBA_model (sampleImage.take 10) 10 = none ∧
    (webp_decode_rgba webpLib_model false 10 false false false
      ⟨sampleImage.take 10, none, 0, 0⟩).1 = 0 :=
  truncated_decode_fails sampleImage 10 false false false false
    ⟨sampleImage.take 10, none, 0, 0⟩ (by decide) (by decide) rfl
